import Mathlib

set_option maxRecDepth 4000

/-!
# KodaCare — verification of the condition-consolidation core

Shallow embedding of the KodaCare backend's structured-extraction and
condition-consolidation pipeline, translated from the Python sources:

* `backend/entities/health_condition.py`   — `HealthCondition`, `ConditionStatus`
* `backend/entities/condition_log.py`      — `ConditionLog`, `InputMode`
* `backend/entities/mascot_memory.py`      — `MascotMemory`, `PersonaPreferences`
* `backend/services/health_condition_service.py` — `find_or_create` and friends
* `backend/services/condition_log_service.py`    — `create_from_gemini_result`
* `backend/services/aura_agent.py`         — `process_input`, memory CRUD

Modelling conventions:

* Python strings are lists of character codes (`List Nat`); `strCodes`
  converts a Lean string literal to its code list.  The casing and
  whitespace model is the ASCII fragment of Python's `str.strip` /
  `str.title` (the repository only ever feeds ASCII condition names).
* MongoDB collections are lists of documents plus a fresh-id counter;
  `insert_one` appends and allocates `_id := nextId`, `update_one` by
  `_id` maps over the list, and the `uq_user_condition` unique index
  makes an insert of a duplicate `(user_id, condition_name)` pair fail
  with a duplicate-key error instead of inserting.
* Timestamps (`datetime.now`) are opaque `Nat` values passed in as `now`.
* Python exceptions are `PyErr` values (exception class name + message);
  a function that can raise returns `Except PyErr _`, and a stateful
  function returns the (possibly mutated) store alongside, because a
  raised exception does not roll back database writes already done.
-/

/-! ## Character-code model of `condition_name.strip().title()` -/

/-- Character codes of a Lean string literal (used to write concrete
Python strings in the model). -/
def strCodes (s : String) : List Nat := s.data.map Char.toNat

/-- ASCII whitespace recognised by `str.strip` (space and `\t\n\v\f\r`). -/
def isSpaceCode (n : Nat) : Bool := decide (n = 32 ∨ (9 ≤ n ∧ n ≤ 13))

/-- ASCII lowercase letter. -/
def isLowerCode (n : Nat) : Bool := decide (97 ≤ n ∧ n ≤ 122)

/-- ASCII uppercase letter. -/
def isUpperCode (n : Nat) : Bool := decide (65 ≤ n ∧ n ≤ 90)

/-- A cased character in the ASCII model (Python `str.title` starts a new
word at every non-cased character). -/
def isCasedCode (n : Nat) : Bool := isLowerCode n || isUpperCode n

/-- ASCII uppercasing of one character code. -/
def upperCode (n : Nat) : Nat := if isLowerCode n then n - 32 else n

/-- ASCII lowercasing of one character code. -/
def lowerCode (n : Nat) : Nat := if isUpperCode n then n + 32 else n

/-- Leading-whitespace removal half of `str.strip`. -/
def dropLead (l : List Nat) : List Nat := l.dropWhile isSpaceCode

/-- Trailing-whitespace removal half of `str.strip`. -/
def dropTrail : List Nat → List Nat
  | [] => []
  | c :: cs =>
    match dropTrail cs with
    | [] => if isSpaceCode c then [] else [c]
    | d :: ds => c :: d :: ds

/-- Python `s.strip()` on character codes. -/
def stripCodes (l : List Nat) : List Nat := dropTrail (dropLead l)

theorem dropTrail_cons (c : Nat) (cs : List Nat) :
    dropTrail (c :: cs) = match dropTrail cs with
      | [] => if isSpaceCode c then [] else [c]
      | d :: ds => c :: d :: ds := rfl

/-- Worker for `str.title`: `prevCased` records whether the previous
character was cased; the first cased character of each word is
uppercased, later cased characters are lowercased. -/
def titleAux : Bool → List Nat → List Nat
  | _, [] => []
  | prevCased, c :: cs =>
    if isCasedCode c then
      (if prevCased then lowerCode c else upperCode c) :: titleAux true cs
    else
      c :: titleAux false cs

/-- Python `s.title()` on character codes. -/
def titleCodes (l : List Nat) : List Nat := titleAux false l

/-- The condition-name normalization used at
`health_condition_service.py:85` and `health_condition.py:78`:
`condition_name.strip().title()`. -/
def normalizeName (l : List Nat) : List Nat := titleCodes (stripCodes l)

/-! ### Normalization lemmas -/

theorem isCasedCode_upperCode (n : Nat) : isCasedCode (upperCode n) = isCasedCode n := by
  by_cases h : isLowerCode n = true
  · have h' : 97 ≤ n ∧ n ≤ 122 := by simpa [isLowerCode] using h
    have l : isCasedCode (n - 32) = true := by
      simp [isCasedCode, isLowerCode, isUpperCode]; omega
    have r : isCasedCode n = true := by
      simp [isCasedCode, isLowerCode, isUpperCode]; omega
    simp [upperCode, h, l, r]
  · simp [upperCode, h]

theorem isCasedCode_lowerCode (n : Nat) : isCasedCode (lowerCode n) = isCasedCode n := by
  by_cases h : isUpperCode n = true
  · have h' : 65 ≤ n ∧ n ≤ 90 := by simpa [isUpperCode] using h
    have l : isCasedCode (n + 32) = true := by
      simp [isCasedCode, isLowerCode, isUpperCode]; omega
    have r : isCasedCode n = true := by
      simp [isCasedCode, isLowerCode, isUpperCode]; omega
    simp [lowerCode, h, l, r]
  · simp [lowerCode, h]

theorem upperCode_upperCode (n : Nat) : upperCode (upperCode n) = upperCode n := by
  by_cases h : isLowerCode n = true
  · have h' : 97 ≤ n ∧ n ≤ 122 := by simpa [isLowerCode] using h
    have h2 : isLowerCode (n - 32) = false := by simp [isLowerCode]; omega
    simp [upperCode, h, h2]
  · simp [upperCode, h]

theorem lowerCode_lowerCode (n : Nat) : lowerCode (lowerCode n) = lowerCode n := by
  by_cases h : isUpperCode n = true
  · have h' : 65 ≤ n ∧ n ≤ 90 := by simpa [isUpperCode] using h
    have h2 : isUpperCode (n + 32) = false := by simp [isUpperCode]; omega
    simp [lowerCode, h, h2]
  · simp [lowerCode, h]

theorem isSpaceCode_upperCode (n : Nat) : isSpaceCode (upperCode n) = isSpaceCode n := by
  by_cases h : isLowerCode n = true
  · have h' : 97 ≤ n ∧ n ≤ 122 := by simpa [isLowerCode] using h
    have l : isSpaceCode (n - 32) = false := by simp [isSpaceCode]; omega
    have r : isSpaceCode n = false := by simp [isSpaceCode]; omega
    simp [upperCode, h, l, r]
  · simp [upperCode, h]

theorem isSpaceCode_lowerCode (n : Nat) : isSpaceCode (lowerCode n) = isSpaceCode n := by
  by_cases h : isUpperCode n = true
  · have h' : 65 ≤ n ∧ n ≤ 90 := by simpa [isUpperCode] using h
    have l : isSpaceCode (n + 32) = false := by simp [isSpaceCode]; omega
    have r : isSpaceCode n = false := by simp [isSpaceCode]; omega
    simp [lowerCode, h, l, r]
  · simp [lowerCode, h]

theorem isSpaceCode_eq_false_of_cased (n : Nat) (h : isCasedCode n = true) :
    isSpaceCode n = false := by
  have h' : (97 ≤ n ∧ n ≤ 122) ∨ (65 ≤ n ∧ n ≤ 90) := by
    simpa [isCasedCode, isLowerCode, isUpperCode] using h
  simp [isSpaceCode]
  omega

theorem titleAux_eq_nil_iff (b : Bool) (l : List Nat) : titleAux b l = [] ↔ l = [] := by
  cases l with
  | nil => simp [titleAux]
  | cons c cs => simp only [titleAux]; split <;> simp

theorem titleAux_idem (l : List Nat) : ∀ b, titleAux b (titleAux b l) = titleAux b l := by
  induction l with
  | nil => intro b; rfl
  | cons c cs ih =>
    intro b
    by_cases hc : isCasedCode c = true
    · cases b with
      | false =>
        have h1 : isCasedCode (upperCode c) = true := by
          rw [isCasedCode_upperCode]; exact hc
        simp [titleAux, hc, h1, upperCode_upperCode, ih true]
      | true =>
        have h1 : isCasedCode (lowerCode c) = true := by
          rw [isCasedCode_lowerCode]; exact hc
        simp [titleAux, hc, h1, lowerCode_lowerCode, ih true]
    · simp [titleAux, hc, ih false]

theorem dropLead_titleAux (l : List Nat) :
    dropLead (titleAux false l) = titleAux false (dropLead l) := by
  induction l with
  | nil => rfl
  | cons c cs ih =>
    by_cases hc : isCasedCode c = true
    · have hs : isSpaceCode c = false := isSpaceCode_eq_false_of_cased c hc
      have hs2 : isSpaceCode (upperCode c) = false := by
        rw [isSpaceCode_upperCode]; exact hs
      simp only [titleAux, hc, ite_true, ite_false, dropLead, List.dropWhile_cons, hs, hs2,
        Bool.false_eq_true]
    · by_cases hs : isSpaceCode c = true
      · simp only [titleAux, hc, ite_false, Bool.false_eq_true, dropLead,
          List.dropWhile_cons, hs, ite_true]
        exact ih
      · simp only [titleAux, hc, ite_false, Bool.false_eq_true, dropLead,
          List.dropWhile_cons, hs]

theorem dropTrail_titleAux (l : List Nat) :
    ∀ b, dropTrail (titleAux b l) = titleAux b (dropTrail l) := by
  induction l with
  | nil => intro b; rfl
  | cons c cs ih =>
    intro b
    by_cases hc : isCasedCode c = true
    · have hs : isSpaceCode c = false := isSpaceCode_eq_false_of_cased c hc
      have hs2 : ∀ bb : Bool, isSpaceCode (if bb then lowerCode c else upperCode c) = false := by
        intro bb; cases bb
        · rw [if_neg (by simp)]; rw [isSpaceCode_upperCode]; exact hs
        · rw [if_pos rfl]; rw [isSpaceCode_lowerCode]; exact hs
      rcases hdt : dropTrail cs with _ | ⟨d, ds⟩
      · have h1 : dropTrail (titleAux true cs) = [] := by
          rw [ih true, hdt]; rfl
        simp only [titleAux, hc, ite_true, dropTrail, h1, hdt, hs, hs2, ite_false,
          Bool.false_eq_true]
      · have h1 : dropTrail (titleAux true cs) = titleAux true (d :: ds) := by
          rw [ih true, hdt]
        simp only [titleAux, hc, ite_true, dropTrail, h1, hdt]
        rcases hti : titleAux true (d :: ds) with _ | ⟨e, es⟩
        · exact absurd ((titleAux_eq_nil_iff true (d :: ds)).mp hti) (by simp)
        · by_cases hd : isCasedCode d = true <;> simp [hd]
    · rcases hdt : dropTrail cs with _ | ⟨d, ds⟩
      · have h1 : dropTrail (titleAux false cs) = [] := by
          rw [ih false, hdt]; rfl
        by_cases hs : isSpaceCode c = true
        · simp only [titleAux, hc, ite_false, Bool.false_eq_true, dropTrail, h1, hdt, hs,
            ite_true]
        · simp only [titleAux, hc, ite_false, Bool.false_eq_true, dropTrail, h1, hdt, hs]
      · have h1 : dropTrail (titleAux false cs) = titleAux false (d :: ds) := by
          rw [ih false, hdt]
        simp only [titleAux, hc, ite_false, Bool.false_eq_true, dropTrail, h1, hdt]
        rcases hti : titleAux false (d :: ds) with _ | ⟨e, es⟩
        · exact absurd ((titleAux_eq_nil_iff false (d :: ds)).mp hti) (by simp)
        · by_cases hd : isCasedCode d = true <;> simp [hd]

theorem dropLead_dropLead (l : List Nat) : dropLead (dropLead l) = dropLead l := by
  induction l with
  | nil => rfl
  | cons c cs ih =>
    by_cases hs : isSpaceCode c = true
    · simp only [dropLead, List.dropWhile_cons, hs, ite_true] at *
      exact ih
    · simp only [dropLead, List.dropWhile_cons, hs, ite_false, Bool.false_eq_true]

theorem dropTrail_dropTrail (l : List Nat) : dropTrail (dropTrail l) = dropTrail l := by
  induction l with
  | nil => rfl
  | cons c cs ih =>
    rcases hdt : dropTrail cs with _ | ⟨d, ds⟩
    · by_cases hs : isSpaceCode c = true
      · simp [dropTrail, hdt, hs]
      · simp [dropTrail, hdt, hs]
    · rw [hdt] at ih
      calc dropTrail (dropTrail (c :: cs))
          = dropTrail (c :: d :: ds) := by rw [dropTrail_cons, hdt]
        _ = c :: d :: ds := by rw [dropTrail_cons, ih]
        _ = dropTrail (c :: cs) := by rw [dropTrail_cons, hdt]

theorem head_dropTrail (l : List Nat) :
    dropTrail l = [] ∨ (dropTrail l).head? = l.head? := by
  cases l with
  | nil => left; rfl
  | cons c cs =>
    rcases hdt : dropTrail cs with _ | ⟨d, ds⟩
    · by_cases hs : isSpaceCode c = true
      · left; simp [dropTrail, hdt, hs]
      · right; simp [dropTrail, hdt, hs]
    · right; simp [dropTrail, hdt]

theorem dropLead_eq_self_of_head (l : List Nat)
    (h : ∀ c, l.head? = some c → isSpaceCode c = false) : dropLead l = l := by
  cases l with
  | nil => rfl
  | cons c cs =>
    have := h c rfl
    simp [dropLead, List.dropWhile_cons, this]

theorem head_dropLead (l : List Nat) :
    ∀ c, (dropLead l).head? = some c → isSpaceCode c = false := by
  induction l with
  | nil => intro c h; simp [dropLead] at h
  | cons a as ih =>
    intro c h
    by_cases hs : isSpaceCode a = true
    · simp only [dropLead, List.dropWhile_cons, hs, ite_true] at h
      exact ih c h
    · simp only [dropLead, List.dropWhile_cons, hs, ite_false, Bool.false_eq_true,
        List.head?_cons, Option.some.injEq] at h
      rw [← h]
      simp [hs]

theorem stripCodes_idem (l : List Nat) : stripCodes (stripCodes l) = stripCodes l := by
  unfold stripCodes
  have h1 : dropLead (dropTrail (dropLead l)) = dropTrail (dropLead l) := by
    apply dropLead_eq_self_of_head
    intro c hc
    rcases head_dropTrail (dropLead l) with h | h
    · rw [h] at hc; simp at hc
    · rw [h] at hc
      exact head_dropLead l c hc
  rw [h1, dropTrail_dropTrail]

theorem stripCodes_titleCodes (l : List Nat) :
    stripCodes (titleCodes l) = titleCodes (stripCodes l) := by
  unfold stripCodes titleCodes
  rw [dropLead_titleAux, dropTrail_titleAux]

/-- Full idempotence of the source normalization. -/
theorem normalizeName_idem (l : List Nat) : normalizeName (normalizeName l) = normalizeName l := by
  unfold normalizeName
  rw [stripCodes_titleCodes, stripCodes_idem]
  unfold titleCodes
  rw [titleAux_idem]

/-- C6: condition-name normalization (trim, then title-case) is
idempotent — `normalize (normalize s) = normalize s` for every string —
and the three spellings "headache", "Headache", "HEADACHE" all
normalize to "Headache". -/
theorem normalization_idempotent_and_case_insensitive :
    (∀ s : List Nat, normalizeName (normalizeName s) = normalizeName s) ∧
    normalizeName (strCodes "headache") = strCodes "Headache" ∧
    normalizeName (strCodes "Headache") = strCodes "Headache" ∧
    normalizeName (strCodes "HEADACHE") = strCodes "Headache" := by
  refine ⟨normalizeName_idem, ?_, ?_, ?_⟩ <;> decide

/-! ## Condition-card store (`health_conditions` collection)

The collection is a list of documents plus the next generated `_id`.
The `uq_user_condition` unique index created in
`HealthConditionService.__init__` makes `insert_one` fail with a
duplicate-key error when a document with the same
`(user_id, condition_name)` pair is already present. -/

/-- `ConditionStatus` from `health_condition.py`. -/
inductive ConditionStatus
  | active
  | resolved
deriving DecidableEq

/-- A `HealthCondition` document (entity fields of
`health_condition.py`, with the Mongo `_id` as a `Nat`). -/
structure HealthCondition where
  id : Nat
  userId : String
  conditionName : List Nat
  status : ConditionStatus
  logCount : Nat
  firstReported : Nat
  lastReported : Nat
  createdAt : Nat
  updatedAt : Nat
deriving DecidableEq

/-- The `health_conditions` collection plus the id generator. -/
structure CardStore where
  cards : List HealthCondition
  nextId : Nat
deriving DecidableEq

/-- The filter `{"user_id": ..., "condition_name": ...}` used by
`find_one` and enforced unique by the index. -/
def cardKeyMatches (u : String) (nm : List Nat) (c : HealthCondition) : Bool :=
  c.userId == u && c.conditionName == nm

/-- `find_one` on the `(user_id, condition_name)` filter. -/
def findCard (s : CardStore) (u : String) (nm : List Nat) : Option HealthCondition :=
  s.cards.find? (cardKeyMatches u nm)

/-- Storage-level errors that the service code can observe. -/
inductive DbError
  | duplicateKey
deriving DecidableEq

/-- `insert_one` on `health_conditions`: the unique index on
`(user_id, condition_name)` rejects a duplicate pair; otherwise the
document is appended with a fresh `_id`. -/
def insertCard (s : CardStore) (c : HealthCondition) :
    CardStore × Except DbError Nat :=
  if s.cards.any (cardKeyMatches c.userId c.conditionName) then
    (s, .error .duplicateKey)
  else
    ({ cards := s.cards ++ [{ c with id := s.nextId }], nextId := s.nextId + 1 },
     .ok s.nextId)

/-- The `$set` document of `find_or_create`'s `update_one`: only
`log_count`, `last_reported`, `status` and `updated_at` are written —
never the key fields. -/
def setCardFields (i lc lr : Nat) (st : ConditionStatus) (ua : Nat)
    (c : HealthCondition) : HealthCondition :=
  if c.id = i then
    { c with logCount := lc, lastReported := lr, status := st, updatedAt := ua }
  else c

/-- `update_one({"_id": i}, {"$set": ...})` on `health_conditions`. -/
def updateCardById (s : CardStore) (i lc lr : Nat) (st : ConditionStatus) (ua : Nat) :
    CardStore :=
  { s with cards := s.cards.map (setCardFields i lc lr st ua) }

/-- `HealthCondition.record_new_log`: increment the counter, bump
`last_reported`, touch `updated_at`. -/
def record_new_log (now : Nat) (c : HealthCondition) : HealthCondition :=
  { c with logCount := c.logCount + 1, lastReported := now, updatedAt := now }

/-- `HealthCondition.reactivate`: re-open a resolved card. -/
def reactivate (now : Nat) (c : HealthCondition) : HealthCondition :=
  { c with status := ConditionStatus.active, updatedAt := now }

/-- `HealthCondition.resolve`. -/
def resolveCard (now : Nat) (c : HealthCondition) : HealthCondition :=
  { c with status := ConditionStatus.resolved, updatedAt := now }

/-- The branch of `find_or_create` taken when `find_one` returned a
document (`health_condition_service.py:94-121`). -/
def focUpdatePath (s : CardStore) (doc : HealthCondition) (now : Nat) :
    CardStore × HealthCondition × Bool :=
  let card := record_new_log now doc
  let card := if card.status = ConditionStatus.resolved then reactivate now card else card
  (updateCardById s card.id card.logCount card.lastReported card.status card.updatedAt,
   card, false)

/-- The branch of `find_or_create` taken when `find_one` returned
nothing (`health_condition_service.py:123-139`): build a fresh card
with `log_count = 1` and insert it.  The insert can hit the unique
index; the Python has no try/except here, so the error propagates. -/
def newCardDoc (u : String) (normalised : List Nat) (now : Nat) : HealthCondition :=
  { id := 0, userId := u, conditionName := normalised,
    status := ConditionStatus.active, logCount := 1,
    firstReported := now, lastReported := now,
    createdAt := now, updatedAt := now }

def focCreatePath (s : CardStore) (u : String) (normalised : List Nat) (now : Nat) :
    CardStore × Except DbError (HealthCondition × Bool) :=
  let card := newCardDoc u normalised now
  let r := insertCard s card
  match r.2 with
  | Except.ok newId => (r.1, .ok ({ card with id := newId }, true))
  | Except.error e => (r.1, .error e)

/-- `find_or_create` with its two storage accesses split across two
store snapshots: `sFind` is the collection state seen by the
`find_one` at step 2, `sWrite` the state at the write (step 3 or 4).
A concurrent writer may change the store between the two, which is
exactly the race the unique index guards.  The sequential call is
`sFind = sWrite`. -/
def find_or_create_interleaved (sFind sWrite : CardStore) (u : String)
    (raw : List Nat) (now : Nat) :
    CardStore × Except DbError (HealthCondition × Bool) :=
  let normalised := normalizeName raw
  match findCard sFind u normalised with
  | some doc =>
    let r := focUpdatePath sWrite doc now
    (r.1, .ok (r.2.1, r.2.2))
  | none => focCreatePath sWrite u normalised now

/-- `HealthConditionService.find_or_create` run without interference. -/
def find_or_create (s : CardStore) (u : String) (raw : List Nat) (now : Nat) :
    CardStore × Except DbError (HealthCondition × Bool) :=
  find_or_create_interleaved s s u raw now

/-- Uniqueness invariant of the spec: no two cards share the same
`(owner, normalized name)` pair. -/
def UniqueCards (s : CardStore) : Prop :=
  s.cards.Pairwise (fun a b => ¬(a.userId = b.userId ∧ a.conditionName = b.conditionName))

instance (s : CardStore) : Decidable (UniqueCards s) := by
  unfold UniqueCards; infer_instance

/-- Number of cards matching one `(user, name)` pair. -/
def countFor (s : CardStore) (u : String) (nm : List Nat) : Nat :=
  s.cards.countP (cardKeyMatches u nm)

/-- One atomic write on the `health_conditions` collection.  Every
storage write that any `find_or_create` execution performs is of one
of these two shapes, so an arbitrary interleaving of concurrent calls
is an arbitrary sequence of these operations. -/
inductive CardOp
  | insertOp (c : HealthCondition)
  | updateOp (i lc lr : Nat) (st : ConditionStatus) (ua : Nat)

def applyCardOp (s : CardStore) : CardOp → CardStore
  | CardOp.insertOp c => (insertCard s c).1
  | CardOp.updateOp i lc lr st ua => updateCardById s i lc lr st ua

def applyCardOps (s : CardStore) (ops : List CardOp) : CardStore :=
  ops.foldl applyCardOp s

/-! ### Upsert-engine lemmas -/

theorem setCardFields_userId (i lc lr : Nat) (st : ConditionStatus) (ua : Nat)
    (c : HealthCondition) : (setCardFields i lc lr st ua c).userId = c.userId := by
  unfold setCardFields; split <;> rfl

theorem setCardFields_conditionName (i lc lr : Nat) (st : ConditionStatus) (ua : Nat)
    (c : HealthCondition) :
    (setCardFields i lc lr st ua c).conditionName = c.conditionName := by
  unfold setCardFields; split <;> rfl

theorem cardKeyMatches_setCardFields (u : String) (nm : List Nat)
    (i lc lr : Nat) (st : ConditionStatus) (ua : Nat) (c : HealthCondition) :
    cardKeyMatches u nm (setCardFields i lc lr st ua c) = cardKeyMatches u nm c := by
  unfold cardKeyMatches setCardFields; split <;> rfl

theorem uniqueCards_updateCardById (s : CardStore) (i lc lr : Nat)
    (st : ConditionStatus) (ua : Nat) (h : UniqueCards s) :
    UniqueCards (updateCardById s i lc lr st ua) := by
  unfold UniqueCards updateCardById at *
  rw [List.pairwise_map]
  apply h.imp
  intro a b hab
  simpa only [setCardFields_userId, setCardFields_conditionName] using hab

theorem cardKeyMatches_true_iff (u : String) (nm : List Nat) (c : HealthCondition) :
    cardKeyMatches u nm c = true ↔ c.userId = u ∧ c.conditionName = nm := by
  unfold cardKeyMatches
  simp

theorem any_eq_false_of_findCard_none (s : CardStore) (u : String) (nm : List Nat)
    (h : findCard s u nm = none) : s.cards.any (cardKeyMatches u nm) = false := by
  unfold findCard at h
  rw [List.any_eq_false]
  intro x hx
  have := List.find?_eq_none.mp h x hx
  simpa using this

theorem uniqueCards_insertCard (s : CardStore) (c : HealthCondition)
    (h : UniqueCards s) : UniqueCards (insertCard s c).1 := by
  unfold insertCard
  by_cases hmem : s.cards.any (cardKeyMatches c.userId c.conditionName) = true
  · simpa [hmem] using h
  · rw [Bool.not_eq_true] at hmem
    have hall : ∀ x ∈ s.cards, cardKeyMatches c.userId c.conditionName x = false := by
      intro x hx
      have := List.any_eq_false.mp hmem x hx
      simpa using this
    simp only [hmem, Bool.false_eq_true, if_false, ite_false]
    unfold UniqueCards
    simp only []
    rw [List.pairwise_append]
    refine ⟨h, List.pairwise_singleton _ _, ?_⟩
    intro a ha b hb
    simp only [List.mem_singleton] at hb
    subst hb
    intro hkey
    have : cardKeyMatches c.userId c.conditionName a = true := by
      rw [cardKeyMatches_true_iff]
      exact ⟨by simpa using hkey.1, by simpa using hkey.2⟩
    rw [hall a ha] at this
    exact absurd this (by simp)

theorem countFor_updateCardById (s : CardStore) (i lc lr : Nat)
    (st : ConditionStatus) (ua : Nat) (u : String) (nm : List Nat) :
    countFor (updateCardById s i lc lr st ua) u nm = countFor s u nm := by
  unfold countFor updateCardById
  simp only []
  rw [List.countP_map]
  apply List.countP_congr
  intro x hx
  simp [Function.comp, cardKeyMatches_setCardFields]

theorem countP_le_one_of_pairwise (l : List HealthCondition) (u : String) (nm : List Nat)
    (h : l.Pairwise (fun a b => ¬(a.userId = b.userId ∧ a.conditionName = b.conditionName))) :
    l.countP (cardKeyMatches u nm) ≤ 1 := by
  induction l with
  | nil => simp
  | cons c cs ih =>
    rw [List.pairwise_cons] at h
    by_cases hc : cardKeyMatches u nm c = true
    · have hcc := (cardKeyMatches_true_iff u nm c).mp hc
      have hzero : cs.countP (cardKeyMatches u nm) = 0 := by
        rw [List.countP_eq_zero]
        intro b hb hbmatch
        have hbb := (cardKeyMatches_true_iff u nm b).mp hbmatch
        exact h.1 b hb ⟨hcc.1.trans hbb.1.symm, hcc.2.trans hbb.2.symm⟩
      rw [List.countP_cons_of_pos _ _ hc, hzero]
    · rw [List.countP_cons_of_neg _ _ (by simpa using hc)]
      exact ih h.2

theorem countFor_le_one (s : CardStore) (u : String) (nm : List Nat)
    (h : UniqueCards s) : countFor s u nm ≤ 1 :=
  countP_le_one_of_pairwise s.cards u nm h

theorem countFor_pos_of_findCard_some (s : CardStore) (u : String) (nm : List Nat)
    (c : HealthCondition) (h : findCard s u nm = some c) : 1 ≤ countFor s u nm := by
  unfold countFor
  rw [Nat.succ_le, List.countP_pos_iff]
  exact ⟨c, List.mem_of_find?_eq_some h, List.find?_some h⟩

theorem countFor_pos_of_any (s : CardStore) (u : String) (nm : List Nat)
    (h : s.cards.any (cardKeyMatches u nm) = true) : 1 ≤ countFor s u nm := by
  unfold countFor
  rw [Nat.succ_le, List.countP_pos_iff]
  simpa using h

theorem countFor_eq_zero_of_findCard_none (s : CardStore) (u : String) (nm : List Nat)
    (h : findCard s u nm = none) : countFor s u nm = 0 := by
  unfold countFor
  rw [List.countP_eq_zero]
  intro a ha
  have := List.find?_eq_none.mp h a ha
  simpa using this

/-! ### C1, C2, C8 theorems about the upsert engine -/

/-- C1: no two condition cards ever share the same (owner, normalized
name) pair, and after `find_or_create(u, n)` calls — concurrent ones
included — exactly one card exists for the pair.  Part 1: every
interleaving of the atomic storage writes issued by `find_or_create`
executions preserves uniqueness (the unique index is the sole
synchronization).  Part 2: an uninterfered call always succeeds and
leaves exactly one card for `(u, normalize n)`.  Part 3: even a call
that loses the creation race (duplicate-key error) leaves the store
with exactly one card for the pair. -/
theorem condition_card_uniqueness :
    (∀ (ops : List CardOp) (s : CardStore), UniqueCards s →
        UniqueCards (applyCardOps s ops)) ∧
    (∀ (s : CardStore) (u : String) (raw : List Nat) (now : Nat),
        UniqueCards s →
        UniqueCards (find_or_create s u raw now).1 ∧
        countFor (find_or_create s u raw now).1 u (normalizeName raw) = 1) ∧
    (∀ (sF sW : CardStore) (u : String) (raw : List Nat) (now : Nat),
        UniqueCards sW →
        (find_or_create_interleaved sF sW u raw now).2 =
          Except.error DbError.duplicateKey →
        (find_or_create_interleaved sF sW u raw now).1 = sW ∧
        countFor sW u (normalizeName raw) = 1) := by
  refine ⟨?_, ?_, ?_⟩
  · intro ops
    induction ops with
    | nil => intro s h; exact h
    | cons op rest ih =>
      intro s h
      apply ih
      cases op with
      | insertOp c => exact uniqueCards_insertCard s c h
      | updateOp i lc lr st ua => exact uniqueCards_updateCardById s i lc lr st ua h
  · intro s u raw now hU
    unfold find_or_create find_or_create_interleaved
    rcases hf : findCard s u (normalizeName raw) with _ | doc
    · have hany := any_eq_false_of_findCard_none s u (normalizeName raw) hf
      have hzero := countFor_eq_zero_of_findCard_none s u (normalizeName raw) hf
      simp only [hf]
      unfold focCreatePath insertCard
      simp only [newCardDoc, hany, Bool.false_eq_true, if_false, ite_false]
      constructor
      · have := uniqueCards_insertCard s (newCardDoc u (normalizeName raw) now) hU
        unfold insertCard at this
        simpa [newCardDoc, hany] using this
      · unfold countFor at *
        simp only []
        rw [List.countP_append, hzero]
        simp [cardKeyMatches]
    · simp only [hf]
      unfold focUpdatePath
      constructor
      · exact uniqueCards_updateCardById _ _ _ _ _ _ hU
      · rw [countFor_updateCardById]
        have h1 := countFor_pos_of_findCard_some s u (normalizeName raw) doc hf
        have h2 := countFor_le_one s u (normalizeName raw) hU
        omega
  · intro sF sW u raw now hU herr
    rcases hf : findCard sF u (normalizeName raw) with _ | doc
    · unfold find_or_create_interleaved at herr ⊢
      simp only [hf] at herr ⊢
      unfold focCreatePath insertCard at herr ⊢
      by_cases hany : sW.cards.any
          (cardKeyMatches (newCardDoc u (normalizeName raw) now).userId
            (newCardDoc u (normalizeName raw) now).conditionName) = true
      · simp only [hany, ite_true] at herr ⊢
        refine ⟨trivial, ?_⟩
        have hpos : 1 ≤ countFor sW u (normalizeName raw) := by
          apply countFor_pos_of_any
          simpa [newCardDoc] using hany
        have hle := countFor_le_one sW u (normalizeName raw) hU
        omega
      · rw [Bool.not_eq_true] at hany
        simp [hany] at herr
    · unfold find_or_create_interleaved at herr
      simp only [hf] at herr
      exact absurd herr (by simp)

/-- C8: when a card already exists for the (user, normalized name)
pair, `find_or_create` follows the update path: it returns
`wasCreated = false`, the returned card is `Active` (a `Resolved` card
is reactivated by `reactivate()`, an `Active` one is untouched), and
no second card is created (the collection keeps its size). -/
theorem find_or_create_reactivates (s : CardStore) (u : String) (raw : List Nat)
    (now : Nat) (doc : HealthCondition)
    (hfind : findCard s u (normalizeName raw) = some doc) :
    ∃ card, (find_or_create s u raw now).2 = Except.ok (card, false) ∧
      card.status = ConditionStatus.active ∧
      (find_or_create s u raw now).1.cards.length = s.cards.length := by
  unfold find_or_create find_or_create_interleaved
  simp only [hfind]
  unfold focUpdatePath
  refine ⟨_, rfl, ?_, ?_⟩
  · rcases hst : doc.status with _ | _
    · simp [record_new_log, hst, reactivate]
    · simp [record_new_log, hst, reactivate]
  · unfold updateCardById
    simp [List.length_map]

/-- C2 counterexample: the claimed internal retry does not exist in the
code.  Concretely: start from an empty store; a competing call creates
the "Migraine" card for user "u1"; the call under test had already run
its `find_one` (seeing nothing) and now runs the creation step — the
`insert_one` hits the unique index and `find_or_create` propagates the
duplicate-key error to its caller instead of retrying as an update. -/
theorem conflict_error_surfaces_to_caller :
    (find_or_create_interleaved (CardStore.mk [] 0)
      (find_or_create (CardStore.mk [] 0) "u1" (strCodes "Migraine") 0).1
      "u1" (strCodes "Migraine") 0).2 = Except.error DbError.duplicateKey := by
  rfl

/-- C2 amended: when the creation step of `find_or_create` hits the
storage-level uniqueness conflict (a concurrent call inserted the card
for the same (user, normalized name) pair after this call's lookup),
the duplicate-key error propagates to the caller — there is no
internal retry — while the store is left unchanged, still holding
exactly one card for the pair. -/
theorem conflict_propagates_without_duplicate (sF sW : CardStore) (u : String)
    (raw : List Nat) (now : Nat)
    (hF : findCard sF u (normalizeName raw) = none)
    (hW : sW.cards.any (cardKeyMatches u (normalizeName raw)) = true)
    (hU : UniqueCards sW) :
    find_or_create_interleaved sF sW u raw now = (sW, Except.error DbError.duplicateKey) ∧
    countFor sW u (normalizeName raw) = 1 := by
  constructor
  · unfold find_or_create_interleaved
    simp only [hF]
    unfold focCreatePath insertCard
    have : sW.cards.any
        (cardKeyMatches (newCardDoc u (normalizeName raw) now).userId
          (newCardDoc u (normalizeName raw) now).conditionName) = true := by
      simpa [newCardDoc] using hW
    simp [this]
  · have hpos := countFor_pos_of_any sW u (normalizeName raw) hW
    have hle := countFor_le_one sW u (normalizeName raw) hU
    omega

/-- Witness for `conflict_propagates_without_duplicate`: the concrete
race of `conflict_error_surfaces_to_caller`. -/
theorem conflict_propagates_without_duplicate_witness :
    find_or_create_interleaved (CardStore.mk [] 0)
        (find_or_create (CardStore.mk [] 0) "u1" (strCodes "Migraine") 0).1
        "u1" (strCodes "Migraine") 0 =
      ((find_or_create (CardStore.mk [] 0) "u1" (strCodes "Migraine") 0).1,
        Except.error DbError.duplicateKey) ∧
    countFor (find_or_create (CardStore.mk [] 0) "u1" (strCodes "Migraine") 0).1
      "u1" (normalizeName (strCodes "Migraine")) = 1 :=
  conflict_propagates_without_duplicate _ _ "u1" (strCodes "Migraine") 0
    (by decide) (by decide) (by decide)

/-! ### C7: monotonic recurrence count -/

/-- `k` successful sequential `find_or_create(u, raw)` calls. -/
def focIter (u : String) (raw : List Nat) (now : Nat) : Nat → CardStore → CardStore
  | 0, s => s
  | k + 1, s => (find_or_create (focIter u raw now k s) u raw now).1

/-- The card shape produced by the `k`-th sequential call (all
timestamps are the shared `now`). -/
def grownCard (u : String) (nm : List Nat) (i now k : Nat) : HealthCondition :=
  { id := i, userId := u, conditionName := nm, status := ConditionStatus.active,
    logCount := k, firstReported := now, lastReported := now,
    createdAt := now, updatedAt := now }

theorem focIter_closed (s : CardStore) (u : String) (raw : List Nat) (now : Nat)
    (hids : ∀ c ∈ s.cards, c.id < s.nextId)
    (hnone : findCard s u (normalizeName raw) = none) :
    ∀ k, focIter u raw now (k + 1) s =
      CardStore.mk
        (s.cards ++ [grownCard u (normalizeName raw) s.nextId now (k + 1)])
        (s.nextId + 1) := by
  intro k
  induction k with
  | zero =>
    show (find_or_create s u raw now).1 = _
    unfold find_or_create find_or_create_interleaved
    simp only [hnone]
    unfold focCreatePath insertCard
    have hany := any_eq_false_of_findCard_none s u (normalizeName raw) hnone
    simp [newCardDoc, hany, grownCard]
  | succ k ih =>
    show (find_or_create (focIter u raw now (k + 1) s) u raw now).1 = _
    rw [ih]
    unfold find_or_create find_or_create_interleaved
    have hfind : findCard
        (CardStore.mk
          (s.cards ++ [grownCard u (normalizeName raw) s.nextId now (k + 1)])
          (s.nextId + 1)) u (normalizeName raw) =
        some (grownCard u (normalizeName raw) s.nextId now (k + 1)) := by
      unfold findCard at hnone ⊢
      rw [List.find?_append, hnone]
      simp [cardKeyMatches, grownCard]
    simp only [hfind]
    unfold focUpdatePath record_new_log reactivate
    simp only [grownCard]
    unfold updateCardById
    have hmap : ∀ (lc lr ua : Nat) (st : ConditionStatus),
        s.cards.map (setCardFields s.nextId lc lr st ua) = s.cards := by
      intro lc lr ua st
      have h1 : s.cards.map (setCardFields s.nextId lc lr st ua) = s.cards.map id := by
        apply List.map_congr_left
        intro a ha
        have h2 := hids a ha
        unfold setCardFields
        rw [if_neg (by omega)]
        rfl
      simpa using h1
    simp [List.map_append, hmap, setCardFields, grownCard]

/-- C7: starting from a store with no card for `(u, normalize n)`
(and well-formed fresh ids), after `k ≥ 1` successful sequential
`find_or_create(u, n)` calls there is exactly one card for the pair
and its `log_count` equals `k`: the first call creates it with
count 1 and each later call increments the count by exactly 1. -/
theorem occurrence_count_equals_call_count (s : CardStore) (u : String)
    (raw : List Nat) (now : Nat) (k : Nat)
    (hids : ∀ c ∈ s.cards, c.id < s.nextId)
    (hnone : findCard s u (normalizeName raw) = none)
    (hk : 1 ≤ k) :
    ∃ card, findCard (focIter u raw now k s) u (normalizeName raw) = some card ∧
      card.logCount = k ∧
      countFor (focIter u raw now k s) u (normalizeName raw) = 1 := by
  obtain ⟨j, rfl⟩ : ∃ j, k = j + 1 := ⟨k - 1, by omega⟩
  rw [focIter_closed s u raw now hids hnone j]
  refine ⟨grownCard u (normalizeName raw) s.nextId now (j + 1), ?_, rfl, ?_⟩
  · unfold findCard at hnone ⊢
    rw [List.find?_append, hnone]
    simp [cardKeyMatches, grownCard]
  · have h0 := countFor_eq_zero_of_findCard_none s u (normalizeName raw) hnone
    unfold countFor at h0 ⊢
    rw [List.countP_append, h0]
    simp [cardKeyMatches, grownCard]

/-- Witness for `occurrence_count_equals_call_count`: three calls for
"headache" starting from the empty store leave one "Headache" card
with `log_count = 3`. -/
theorem occurrence_count_equals_call_count_witness :
    ∃ card, findCard (focIter "u1" (strCodes "headache") 5 3 (CardStore.mk [] 0)) "u1"
        (normalizeName (strCodes "headache")) = some card ∧
      card.logCount = 3 ∧
      countFor (focIter "u1" (strCodes "headache") 5 3 (CardStore.mk [] 0)) "u1"
        (normalizeName (strCodes "headache")) = 1 :=
  occurrence_count_equals_call_count (CardStore.mk [] 0) "u1" (strCodes "headache") 5 3
    (by decide) (by decide) (by decide)

/-- Witness for `find_or_create_reactivates`: a store holding one
resolved "Headache" card with `log_count = 4`. -/
theorem find_or_create_reactivates_witness :
    ∃ card,
      (find_or_create
        (CardStore.mk
          [HealthCondition.mk 0 "u1" (strCodes "Headache")
            ConditionStatus.resolved 4 0 0 0 0] 1)
        "u1" (strCodes "headache") 9).2 = Except.ok (card, false) ∧
      card.status = ConditionStatus.active ∧
      (find_or_create
        (CardStore.mk
          [HealthCondition.mk 0 "u1" (strCodes "Headache")
            ConditionStatus.resolved 4 0 0 0 0] 1)
        "u1" (strCodes "headache") 9).1.cards.length =
      (CardStore.mk
        [HealthCondition.mk 0 "u1" (strCodes "Headache")
          ConditionStatus.resolved 4 0 0 0 0] 1).cards.length :=
  find_or_create_reactivates _ "u1" (strCodes "headache") 9
    (HealthCondition.mk 0 "u1" (strCodes "Headache") ConditionStatus.resolved 4 0 0 0 0)
    (by decide)

/-- Witness for `condition_card_uniqueness`: each part at a concrete
store — one insert trace, one sequential call, and the concrete lost
race of the "Migraine" scenario, all starting empty. -/
theorem condition_card_uniqueness_witness :
    UniqueCards (applyCardOps (CardStore.mk [] 0)
      [CardOp.insertOp (newCardDoc "u1" (strCodes "Headache") 0)]) ∧
    (UniqueCards (find_or_create (CardStore.mk [] 0) "u1" (strCodes "Headache") 0).1 ∧
      countFor (find_or_create (CardStore.mk [] 0) "u1" (strCodes "Headache") 0).1 "u1"
        (normalizeName (strCodes "Headache")) = 1) ∧
    ((find_or_create_interleaved (CardStore.mk [] 0)
        (find_or_create (CardStore.mk [] 0) "u1" (strCodes "Headache") 0).1 "u1"
        (strCodes "Headache") 0).1 =
      (find_or_create (CardStore.mk [] 0) "u1" (strCodes "Headache") 0).1 ∧
      countFor (find_or_create (CardStore.mk [] 0) "u1" (strCodes "Headache") 0).1 "u1"
        (normalizeName (strCodes "Headache")) = 1) :=
  ⟨condition_card_uniqueness.1
      [CardOp.insertOp (newCardDoc "u1" (strCodes "Headache") 0)]
      (CardStore.mk [] 0) (by decide),
   condition_card_uniqueness.2.1 (CardStore.mk [] 0) "u1" (strCodes "Headache") 0
      (by decide),
   condition_card_uniqueness.2.2 (CardStore.mk [] 0)
      (find_or_create (CardStore.mk [] 0) "u1" (strCodes "Headache") 0).1 "u1"
      (strCodes "Headache") 0 (by decide) (by rfl)⟩

/-! ## Mascot memory store (`mascot_memory` collection) -/

/-- `PersonaPreferences` from `mascot_memory.py` with its defaults. -/
structure PersonaPreferences where
  tone : String := "gentle"
  nameUsed : String := "friend"
  mascotName : String := "Barnaby the Bear"
deriving DecidableEq

/-- A `MascotMemory` document (one per user). -/
structure MascotMemory where
  id : Nat
  userId : String
  prefs : PersonaPreferences
  summaryMemory : List Nat
  createdAt : Nat
  updatedAt : Nat
deriving DecidableEq

/-- The `mascot_memory` collection plus the id generator. -/
structure MemStore where
  mems : List MascotMemory
  nextId : Nat
deriving DecidableEq

/-- `find_one({"user_id": ...})` on `mascot_memory`
(`AuraMascotAgent.get_memory`). -/
def findMemory (s : MemStore) (u : String) : Option MascotMemory :=
  s.mems.find? (fun m => m.userId == u)

/-- The blank memory created on first interaction
(`MascotMemory(user_id=user_id)` with default preferences and an
empty summary). -/
def blankMemory (i : Nat) (u : String) (now : Nat) : MascotMemory :=
  { id := i, userId := u, prefs := {}, summaryMemory := [],
    createdAt := now, updatedAt := now }

/-- `AuraMascotAgent.get_or_create_memory` (`aura_agent.py:127-141`):
return the existing document, else insert a blank one. -/
def get_or_create_memory (s : MemStore) (u : String) (now : Nat) :
    MemStore × MascotMemory :=
  match findMemory s u with
  | some m => (s, m)
  | none =>
    let m := blankMemory s.nextId u now
    (MemStore.mk (s.mems ++ [m]) (s.nextId + 1), m)

/-- The summary concatenation of `AuraMascotAgent.append_to_summary`:
newline-joined when a summary already exists (code 10 is `\n`). -/
def appendLine (summary line : List Nat) : List Nat :=
  if summary.isEmpty then line else summary ++ 10 :: line

/-- The `$set` write of `AuraMascotAgent._save` restricted to what
`append_to_summary` changes (preferences are written back unchanged). -/
def saveMemorySummary (s : MemStore) (i : Nat) (newSummary : List Nat) (now : Nat) :
    MemStore :=
  MemStore.mk
    (s.mems.map (fun m =>
      if m.id = i then { m with summaryMemory := newSummary, updatedAt := now } else m))
    s.nextId

/-- `AuraMascotAgent.append_to_summary` (`aura_agent.py:200-210`). -/
def append_to_summary (s : MemStore) (u : String) (line : List Nat) (now : Nat) :
    MemStore :=
  let r := get_or_create_memory s u now
  saveMemorySummary r.1 r.2.id (appendLine r.2.summaryMemory line) now

/-! ## Condition logs (`condition_logs` collection) -/

/-- `InputMode` from `condition_log.py`. -/
inductive InputMode
  | text
  | voice
  | image
  | text_image
  | text_voice
  | voice_image
  | all
deriving DecidableEq

/-- A `ConditionLog` document. -/
structure ConditionLog where
  id : Nat
  userId : String
  conditionName : List Nat
  painLevel : Nat
  location : List (List Nat)
  details : List Nat
  symptomTimestamp : List Nat
  inputMode : InputMode
  mascotResponse : List Nat
  mascotNotes : List (List Nat)
  conditionId : Option Nat
  createdAt : Nat
deriving DecidableEq

/-- The `condition_logs` collection plus the id generator. -/
structure LogStore where
  logs : List ConditionLog
  nextId : Nat
deriving DecidableEq

/-- The fields Gemini returns under `extracted_data`
(schema-guaranteed present). -/
structure ExtractedData where
  painLevel : Nat
  location : List (List Nat)
  details : List Nat
  timestamp : List Nat
  mascotNotes : List (List Nat)
deriving DecidableEq

/-- The parsed structured JSON response (`_RESPONSE_SCHEMA`):
`action`, `condition_name`, `extracted_data`, `mascot_response`. -/
structure GeminiResult where
  action : String
  conditionName : List Nat
  extractedData : ExtractedData
  mascotResponse : List Nat
deriving DecidableEq

/-- `ConditionLogService.create_from_gemini_result`: map the parsed
result into one immutable log document and insert it. -/
def create_from_gemini_result (s : LogStore) (u : String) (r : GeminiResult)
    (mode : InputMode) (conditionId : Option Nat) (now : Nat) :
    LogStore × ConditionLog :=
  let log : ConditionLog :=
    { id := s.nextId, userId := u, conditionName := r.conditionName,
      painLevel := r.extractedData.painLevel, location := r.extractedData.location,
      details := r.extractedData.details,
      symptomTimestamp := r.extractedData.timestamp, inputMode := mode,
      mascotResponse := r.mascotResponse, mascotNotes := r.extractedData.mascotNotes,
      conditionId := conditionId, createdAt := now }
  (LogStore.mk (s.logs ++ [log]) (s.nextId + 1), log)

/-! ## `process_input` (`aura_agent.py:585-819`)

External collaborators are parameters: the Gemini response is the
`oracleText` string (Python `response.text`, with `""` standing for a
falsy/absent text), and `json.loads` is an abstract partial parser
`jsonLoads` returning `none` exactly when Python would raise
`JSONDecodeError`.  The audio/image inputs are the resolved raw bytes
(the `_resolve_audio`/`_resolve_image` helpers only extract bytes and
a MIME type from file objects, which the claims do not touch). -/

/-- A raised Python exception: class name plus message. -/
structure PyErr where
  exnType : String
  message : String
deriving DecidableEq

/-- `ValueError` raised at `aura_agent.py:657`. -/
def invalidInputError : PyErr :=
  PyErr.mk "ValueError" "At least one input (text, audio, or image) is required."

/-- `RuntimeError` raised at `aura_agent.py:762`. -/
def emptyResponseError : PyErr :=
  PyErr.mk "RuntimeError" "Gemini returned an empty response."

/-- `RuntimeError` raised at `aura_agent.py:767` (the message carries
the first 200 characters of the unparseable text). -/
def invalidJsonError (raw : String) : PyErr :=
  PyErr.mk "RuntimeError" ("Gemini returned invalid JSON: " ++ raw.take 200)

/-- Steps 7 of `process_input`: `response.text` falsy → empty-response
error; `json.loads` failure → invalid-JSON error; otherwise the parsed
result. -/
def parse_oracle_response (jsonLoads : String → Option GeminiResult)
    (rawText : String) : Except PyErr GeminiResult :=
  if rawText.isEmpty then Except.error emptyResponseError
  else
    match jsonLoads rawText with
    | none => Except.error (invalidJsonError rawText)
    | some r => Except.ok r

/-- Python truthiness of the optional `text` argument (`not text` is
true for both `None` and `""`). -/
def textFalsy : Option (List Nat) → Bool
  | none => true
  | some l => l.isEmpty

/-- Step 3 of `process_input` (`aura_agent.py:668-686`): derive the
`InputMode` tag from which inputs are present. -/
def computeInputMode (hasText hasAudio hasImage : Bool) : InputMode :=
  if hasText && hasAudio && hasImage then InputMode.all
  else if hasText && hasImage then InputMode.text_image
  else if hasText && hasAudio then InputMode.text_voice
  else if hasAudio && hasImage then InputMode.voice_image
  else if hasAudio then InputMode.voice
  else if hasImage then InputMode.image
  else InputMode.text

/-- `"; ".join(...)` on code lists. -/
def joinSep (sep : List Nat) : List (List Nat) → List Nat
  | [] => []
  | [x] => x
  | x :: xs => x ++ sep ++ joinSep sep xs

/-- Python `repr` of a list of strings as interpolated by the f-string
(`f"... location {entry.get('location', [])} ..."`); code 39 is the
quote character. -/
def pyReprStrList (xs : List (List Nat)) : List Nat :=
  strCodes "[" ++ joinSep (strCodes ", ") (xs.map (fun x => 39 :: x ++ [39])) ++
  strCodes "]"

/-- The summary line built at `aura_agent.py:798-807`. -/
def summaryLine (r : GeminiResult) : List Nat :=
  let e := r.extractedData
  let notesStr := joinSep (strCodes "; ") e.mascotNotes
  let base :=
    r.conditionName ++ strCodes ": pain " ++ strCodes (toString e.painLevel) ++
    strCodes "/10, location " ++ pyReprStrList e.location ++ strCodes ", " ++
    e.details ++ strCodes " (" ++ e.timestamp ++ strCodes ")"
  if notesStr.isEmpty then base else base ++ strCodes " [notes: " ++ notesStr ++ strCodes "]"

/-- The combined persistent state the agent touches. -/
structure AgentState where
  memories : MemStore
  conditions : CardStore
  logs : LogStore
deriving DecidableEq

/-- The dictionary `process_input` returns to its caller; the three
`Option` fields model the keys that are only present when a condition
was logged (`condition_id`, `is_new_condition`, `log_id`). -/
structure ProcessResult where
  action : String
  conditionName : List Nat
  mascotResponse : List Nat
  summaryLength : Nat
  isFirstInteraction : Bool
  conditionId : Option Nat
  isNewCondition : Option Bool
  logId : Option Nat
deriving DecidableEq

/-- `AuraMascotAgent.process_input`.  Returns the state after the call
together with the outcome — on an exception the state keeps every
write already performed, since the Python raises without rollback.
The Gemini call itself is externalized into `oracleText` (what
`response.text` yields for this request) and `jsonLoads`. -/
def process_input (jsonLoads : String → Option GeminiResult) (oracleText : String)
    (userId : String) (text audioBytes imageBytes : Option (List Nat))
    (_forceLog : Bool) (now : Nat) (s : AgentState) :
    AgentState × Except PyErr ProcessResult :=
  -- step 1 (aura_agent.py:656): validation ignores force_log
  if textFalsy text && audioBytes.isNone && imageBytes.isNone then
    (s, Except.error invalidInputError)
  else
    -- step 2 (line 660): fetch or lazily create the memory FIRST
    let rm := get_or_create_memory s.memories userId now
    let s1 : AgentState := { s with memories := rm.1 }
    let memory := rm.2
    -- step 3 (lines 668-686)
    let mode := computeInputMode (!textFalsy text) audioBytes.isSome imageBytes.isSome
    -- steps 4-7 (lines 688-769): compose instruction (force_log only
    -- alters the instruction text), call Gemini, parse.
    -- force_log only changes the instruction/content sent to Gemini
    -- (lines 694-695 and 737-740), i.e. only the externalized oracle
    -- side; it is not consulted by the validation above.
    match parse_oracle_response jsonLoads oracleText with
    | Except.error e => (s1, Except.error e)
    | Except.ok r =>
      -- step 8 (lines 771-779): attach memory context
      let base : ProcessResult :=
        { action := r.action, conditionName := r.conditionName,
          mascotResponse := r.mascotResponse,
          summaryLength := memory.summaryMemory.length,
          isFirstInteraction := memory.summaryMemory.isEmpty,
          conditionId := none, isNewCondition := none, logId := none }
      -- step 9 (line 786): only when action is update_condition AND
      -- condition_name is truthy
      if r.action == "update_condition" && !r.conditionName.isEmpty then
        match find_or_create s1.conditions userId r.conditionName now with
        | (cards2, Except.ok (card, isNew)) =>
          let mems2 := append_to_summary s1.memories userId (summaryLine r) now
          let lr := create_from_gemini_result s1.logs userId r mode (some card.id) now
          (AgentState.mk mems2 cards2 lr.1,
           Except.ok { base with
             conditionId := some card.id, isNewCondition := some isNew,
             logId := some lr.2.id })
        | (cards2, Except.error _) =>
          ({ s1 with conditions := cards2 },
           Except.error (PyErr.mk "DuplicateKeyError" ""))
      else
        (s1, Except.ok base)

def emptyAgentState : AgentState :=
  AgentState.mk (MemStore.mk [] 0) (CardStore.mk [] 0) (LogStore.mk [] 0)

/-! ### C9: input-mode classification -/

/-- C9: the `InputMode` tag is exactly the presence combination of
{text, audio, image}: each of the seven non-empty combinations maps to
its own distinct mode value ({text} → `text`, {audio, image} →
`voice_image`, {text, audio, image} → `all`, and so on). -/
theorem input_mode_classification :
    computeInputMode true false false = InputMode.text ∧
    computeInputMode false true false = InputMode.voice ∧
    computeInputMode false false true = InputMode.image ∧
    computeInputMode true false true = InputMode.text_image ∧
    computeInputMode true true false = InputMode.text_voice ∧
    computeInputMode false true true = InputMode.voice_image ∧
    computeInputMode true true true = InputMode.all ∧
    [InputMode.text, InputMode.voice, InputMode.image, InputMode.text_image,
      InputMode.text_voice, InputMode.voice_image, InputMode.all].Nodup := by
  decide

/-! ### C5: the two oracle failure kinds -/

/-- C5: the adapter fails with the empty-response error exactly when the
oracle returns no text, with the invalid-JSON error when the text does
not parse, and the two failure values are always distinguishable by
the caller (their messages never coincide; both are `RuntimeError`s,
so the distinction is by message, not exception class). -/
theorem oracle_error_kinds_distinct (jsonLoads : String → Option GeminiResult)
    (raw : String) (hne : raw.isEmpty = false) (hfail : jsonLoads raw = none) :
    parse_oracle_response jsonLoads "" = Except.error emptyResponseError ∧
    parse_oracle_response jsonLoads raw = Except.error (invalidJsonError raw) ∧
    ∀ raw2 : String, invalidJsonError raw2 ≠ emptyResponseError := by
  refine ⟨rfl, ?_, ?_⟩
  · unfold parse_oracle_response
    rw [hne]
    simp [hfail]
  · intro raw2 h
    unfold invalidJsonError emptyResponseError at h
    rw [PyErr.mk.injEq] at h
    have hd := congrArg String.data h.2
    rw [String.data_append] at hd
    have h16 := congrArg (fun l => l[16]?) hd
    simp only at h16
    rw [List.getElem?_append_left (by decide)] at h16
    exact absurd h16 (by decide)

/-- Witness for `oracle_error_kinds_distinct` at `raw = "oops"` with a
parser that rejects everything. -/
theorem oracle_error_kinds_distinct_witness :
    parse_oracle_response (fun _ => none) "" = Except.error emptyResponseError ∧
    parse_oracle_response (fun _ => none) "oops" =
      Except.error (invalidJsonError "oops") ∧
    ∀ raw2 : String, invalidJsonError raw2 ≠ emptyResponseError :=
  oracle_error_kinds_distinct (fun _ => none) "oops" (by decide) rfl

/-! ### C3: validation ignores the force flag -/

/-- C3: contrary to the spec, the input validation at
`aura_agent.py:656` does not consult `force_log`: a call with no text,
no audio and no image raises the invalid-input `ValueError` even when
the force flag is set, instead of proceeding to the oracle.  (The
HTTP controller at `aura_controller.py:104` deliberately forwards
no-content requests when `force_log` is set, and the nudge at
`aura_agent.py:737-740` expects them, so this validation makes that
path unreachable.) -/
theorem force_log_does_not_bypass_validation :
    process_input (fun _ => none) "" "u1" none none none true 0 emptyAgentState =
      (emptyAgentState, Except.error invalidInputError) := by
  rfl

/-! ### C4: what a failed run leaves behind -/

/-- C4 counterexample: a run that fails at the oracle step (empty
response) after passing validation does NOT leave the stored state
exactly as it was: starting with no memory record for the user, the
lazily created blank memory (inserted at step 2, before the oracle
call) survives the failure. -/
theorem oracle_failure_leaves_created_memory :
    (process_input (fun _ => none) "" "u1" (some (strCodes "hi")) none none false 7
        emptyAgentState).2 = Except.error emptyResponseError ∧
    (process_input (fun _ => none) "" "u1" (some (strCodes "hi")) none none false 7
        emptyAgentState).1 ≠ emptyAgentState ∧
    (process_input (fun _ => none) "" "u1" (some (strCodes "hi")) none none false 7
        emptyAgentState).1.memories.mems = [blankMemory 0 "u1" 7] := by
  refine ⟨rfl, by decide, rfl⟩

/-- C4 amended: a run of `process_input` that fails at the oracle step
(empty or unparseable output) creates no condition card, creates no
condition log, and mutates no existing memory record; the only
possible state change is the lazy creation of a blank memory for the
user (which happens before the oracle call and survives the
failure). -/
theorem oracle_failure_state_isolation
    (jsonLoads : String → Option GeminiResult) (oracleText : String)
    (userId : String) (text audioBytes imageBytes : Option (List Nat))
    (forceLog : Bool) (now : Nat) (s : AgentState) (e : PyErr)
    (hv : (textFalsy text && audioBytes.isNone && imageBytes.isNone) = false)
    (he : parse_oracle_response jsonLoads oracleText = Except.error e) :
    (process_input jsonLoads oracleText userId text audioBytes imageBytes
        forceLog now s).2 = Except.error e ∧
    (process_input jsonLoads oracleText userId text audioBytes imageBytes
        forceLog now s).1.conditions = s.conditions ∧
    (process_input jsonLoads oracleText userId text audioBytes imageBytes
        forceLog now s).1.logs = s.logs ∧
    ((process_input jsonLoads oracleText userId text audioBytes imageBytes
        forceLog now s).1.memories = s.memories ∨
      (findMemory s.memories userId = none ∧
        (process_input jsonLoads oracleText userId text audioBytes imageBytes
          forceLog now s).1.memories =
        MemStore.mk (s.memories.mems ++ [blankMemory s.memories.nextId userId now])
          (s.memories.nextId + 1))) := by
  unfold process_input
  rw [hv]
  simp only [Bool.false_eq_true, if_false, ite_false]
  unfold get_or_create_memory
  rcases hm : findMemory s.memories userId with _ | m
  · simp only [hm, he]
    simp
  · simp only [hm, he]
    simp

/-- Witness for `oracle_failure_state_isolation`: the concrete failing
run of `oracle_failure_leaves_created_memory`. -/
theorem oracle_failure_state_isolation_witness :
    (process_input (fun _ => none) "" "u2" (some (strCodes "hi")) none none false 7
        emptyAgentState).2 = Except.error emptyResponseError ∧
    (process_input (fun _ => none) "" "u2" (some (strCodes "hi")) none none false 7
        emptyAgentState).1.conditions = emptyAgentState.conditions ∧
    (process_input (fun _ => none) "" "u2" (some (strCodes "hi")) none none false 7
        emptyAgentState).1.logs = emptyAgentState.logs ∧
    ((process_input (fun _ => none) "" "u2" (some (strCodes "hi")) none none false 7
        emptyAgentState).1.memories = emptyAgentState.memories ∨
      (findMemory emptyAgentState.memories "u2" = none ∧
        (process_input (fun _ => none) "" "u2" (some (strCodes "hi")) none none false 7
          emptyAgentState).1.memories =
        MemStore.mk (emptyAgentState.memories.mems ++
          [blankMemory emptyAgentState.memories.nextId "u2" 7])
          (emptyAgentState.memories.nextId + 1))) :=
  oracle_failure_state_isolation (fun _ => none) "" "u2" (some (strCodes "hi"))
    none none false 7 emptyAgentState emptyResponseError (by decide) rfl

/-! ### C10: `update_condition` with an empty condition name -/

/-- C10: a successful run whose parsed result has
`action = "update_condition"` but an empty `condition_name` skips the
whole upsert block (the guard at `aura_agent.py:786` tests the
truthiness of `condition_name`): no card is found or created, no log
is persisted, no summary line is appended, the returned result carries
none of `condition_id` / `is_new_condition` / `log_id`, and the final
state is identical to the state the same run would produce with
`action = "general_chat"`. -/
theorem empty_condition_name_skips_upsert
    (jsonLoads jsonLoads2 : String → Option GeminiResult) (oracleText : String)
    (userId : String) (text audioBytes imageBytes : Option (List Nat))
    (forceLog : Bool) (now : Nat) (s : AgentState) (r : GeminiResult)
    (hv : (textFalsy text && audioBytes.isNone && imageBytes.isNone) = false)
    (hok : parse_oracle_response jsonLoads oracleText = Except.ok r)
    (_ha : r.action = "update_condition")
    (hn : r.conditionName = [])
    (hok2 : parse_oracle_response jsonLoads2 oracleText =
      Except.ok { r with action := "general_chat" }) :
    (process_input jsonLoads oracleText userId text audioBytes imageBytes
        forceLog now s).1.conditions = s.conditions ∧
    (process_input jsonLoads oracleText userId text audioBytes imageBytes
        forceLog now s).1.logs = s.logs ∧
    ((process_input jsonLoads oracleText userId text audioBytes imageBytes
        forceLog now s).1.memories = s.memories ∨
      (findMemory s.memories userId = none ∧
        (process_input jsonLoads oracleText userId text audioBytes imageBytes
          forceLog now s).1.memories =
        MemStore.mk (s.memories.mems ++ [blankMemory s.memories.nextId userId now])
          (s.memories.nextId + 1))) ∧
    (∃ res, (process_input jsonLoads oracleText userId text audioBytes imageBytes
        forceLog now s).2 = Except.ok res ∧
      res.conditionId = none ∧ res.isNewCondition = none ∧ res.logId = none) ∧
    (process_input jsonLoads oracleText userId text audioBytes imageBytes
      forceLog now s).1 =
    (process_input jsonLoads2 oracleText userId text audioBytes imageBytes
      forceLog now s).1 := by
  unfold process_input
  rw [hv]
  simp only [Bool.false_eq_true, if_false, ite_false]
  have hguard : (r.action == "update_condition" && !r.conditionName.isEmpty) = false := by
    rw [hn]
    simp
  have hguard2 :
      ((GeminiResult.mk "general_chat" r.conditionName r.extractedData
          r.mascotResponse).action == "update_condition" &&
        !(GeminiResult.mk "general_chat" r.conditionName r.extractedData
          r.mascotResponse).conditionName.isEmpty) = false := by
    simp only []
    rw [show (("general_chat" == "update_condition") = false) from by decide]
    simp
  unfold get_or_create_memory
  rcases hm : findMemory s.memories userId with _ | m
  · simp only [hm, hok, hok2, hguard]
    refine ⟨by simp, by simp, Or.inr ⟨by simp, by simp⟩, ⟨_, rfl, rfl, rfl, rfl⟩, ?_⟩
    simp only [hguard2]
    simp
  · simp only [hm, hok, hok2, hguard]
    refine ⟨by simp, by simp, Or.inl (by simp), ⟨_, rfl, rfl, rfl, rfl⟩, ?_⟩
    simp only [hguard2]
    simp

/-- Witness for `empty_condition_name_skips_upsert`: a concrete run on
the empty state whose parsed result is `update_condition` with an
empty condition name. -/
theorem empty_condition_name_skips_upsert_witness :
    (process_input
        (fun _ => some (GeminiResult.mk "update_condition" []
          (ExtractedData.mk 0 [] [] [] []) (strCodes "ok")))
        "x" "u1" (some (strCodes "hi")) none none false 3 emptyAgentState).1.conditions =
      emptyAgentState.conditions ∧
    (process_input
        (fun _ => some (GeminiResult.mk "update_condition" []
          (ExtractedData.mk 0 [] [] [] []) (strCodes "ok")))
        "x" "u1" (some (strCodes "hi")) none none false 3 emptyAgentState).1.logs =
      emptyAgentState.logs ∧
    ((process_input
        (fun _ => some (GeminiResult.mk "update_condition" []
          (ExtractedData.mk 0 [] [] [] []) (strCodes "ok")))
        "x" "u1" (some (strCodes "hi")) none none false 3 emptyAgentState).1.memories =
      emptyAgentState.memories ∨
      (findMemory emptyAgentState.memories "u1" = none ∧
        (process_input
          (fun _ => some (GeminiResult.mk "update_condition" []
            (ExtractedData.mk 0 [] [] [] []) (strCodes "ok")))
          "x" "u1" (some (strCodes "hi")) none none false 3 emptyAgentState).1.memories =
        MemStore.mk (emptyAgentState.memories.mems ++
          [blankMemory emptyAgentState.memories.nextId "u1" 3])
          (emptyAgentState.memories.nextId + 1))) ∧
    (∃ res, (process_input
        (fun _ => some (GeminiResult.mk "update_condition" []
          (ExtractedData.mk 0 [] [] [] []) (strCodes "ok")))
        "x" "u1" (some (strCodes "hi")) none none false 3 emptyAgentState).2 =
        Except.ok res ∧
      res.conditionId = none ∧ res.isNewCondition = none ∧ res.logId = none) ∧
    (process_input
      (fun _ => some (GeminiResult.mk "update_condition" []
        (ExtractedData.mk 0 [] [] [] []) (strCodes "ok")))
      "x" "u1" (some (strCodes "hi")) none none false 3 emptyAgentState).1 =
    (process_input
      (fun _ => some (GeminiResult.mk "general_chat" []
        (ExtractedData.mk 0 [] [] [] []) (strCodes "ok")))
      "x" "u1" (some (strCodes "hi")) none none false 3 emptyAgentState).1 :=
  empty_condition_name_skips_upsert
    (fun _ => some (GeminiResult.mk "update_condition" []
      (ExtractedData.mk 0 [] [] [] []) (strCodes "ok")))
    (fun _ => some (GeminiResult.mk "general_chat" []
      (ExtractedData.mk 0 [] [] [] []) (strCodes "ok")))
    "x" "u1" (some (strCodes "hi")) none none false 3 emptyAgentState
    (GeminiResult.mk "update_condition" [] (ExtractedData.mk 0 [] [] [] []) (strCodes "ok"))
    (by decide) rfl rfl rfl rfl
